import Mathlib

/-!
Shallow embedding of the `RawImage` pixel-buffer class of `src/utils/image.js`
(file `src/unnamed/part_000`).  Pixel data is a `List Nat` of clamped byte
values; JS `Uint8ClampedArray` semantics are mirrored explicitly: a buffer has
a fixed length, writes outside the buffer are discarded, stored values are
clamped to `[0, 255]`, and a read at a fractional or out-of-range index yields
`undefined`, which a subsequent clamped write turns into `0`.
Loops that write consecutive indices of a freshly zeroed buffer are rendered
in closed form as a `List.range`-map: entry `j` holds the value the loop wrote
there, or `0` when no iteration wrote it.
-/

namespace TJS

/-- The pixel buffer of `RawImage` (constructor, line 98): raw bytes plus
width, height and channel count.  `_update` (lines 636-644) assigns all four
fields. -/
structure RawImage where
  data : List Nat
  width : Nat
  height : Nat
  channels : Nat
  deriving DecidableEq, Repr

/-- Error kinds thrown by the source (spec section 7): the generic
`Error('Conversion failed due to unsupported number of channels: ...')` of
`grayscale`/`rgb`/`rgba`/`convert` is `UnsupportedChannelCount`, and
`Error('Resampling method ... is not supported.')` of `resize` is
`UnsupportedResampleMethod`. -/
inductive ImgError where
  | UnsupportedChannelCount
  | UnsupportedResampleMethod
  deriving DecidableEq, Repr

/-- Storing a value into a `Uint8ClampedArray` clamps it to `[0, 255]`. -/
def uclamp (v : Nat) : Nat := min v 255

/-- Line 185: `Math.round(0.2989 * red + 0.5870 * green + 0.1140 * blue)`,
in exact decimal arithmetic: `Math.round x = floor (x + 1/2)` for `x ≥ 0`,
so the luma is `(2989*r + 5870*g + 1140*b + 5000) / 10000` in `Nat` division. -/
def luma (r g b : Nat) : Nat :=
  (2989 * r + 5870 * g + 1140 * b + 5000) / 10000

/-- Number of iterations of the loop `for (i = 0; i < data.length; i += channels)`
(line 180): `⌈data.length / channels⌉`. -/
def grayIters (img : RawImage) : Nat :=
  (img.data.length + img.channels - 1) / img.channels

/-- Lines 176-186: `newData = new Uint8ClampedArray(width * height * 3)` (note
the `* 3`, even though the result is 1-channel), then iteration `k` of the
loop writes `newData[k] = Math.round(0.2989*data[k*c] + 0.5870*data[k*c+1] +
0.1140*data[k*c+2])`.  Closed form: entry `j` was written by iteration `j`
when `j < grayIters`, and keeps its initial `0` otherwise. -/
def grayData (img : RawImage) : List Nat :=
  (List.range (img.width * img.height * 3)).map fun j =>
    if j < grayIters img then
      uclamp (luma (img.data.getD (j * img.channels) 0)
                   (img.data.getD (j * img.channels + 1) 0)
                   (img.data.getD (j * img.channels + 2) 0))
    else 0

/-- `RawImage.grayscale` (lines 171-192): no-op at 1 channel; from 3 or 4
channels builds `grayData` and `_update`s to `channels = 1`; otherwise throws. -/
def grayscale (img : RawImage) : Except ImgError RawImage :=
  if img.channels = 1 then .ok img
  else if img.channels = 3 ∨ img.channels = 4 then
    .ok ⟨grayData img, img.width, img.height, 1⟩
  else .error ImgError.UnsupportedChannelCount

/-- Lines 206-211 (`rgb`, grayscale-to-rgb case): `newData` has
`width*height*3` entries; loop iteration `i < data.length` writes
`newData[3*i + r] = data[i]` for `r = 0,1,2`.  Closed form: entry `j` was
written (by iteration `j / 3`) when `j / 3 < data.length`; writes beyond the
buffer are discarded by the typed array. -/
def rgbFrom1Data (img : RawImage) : List Nat :=
  (List.range (img.width * img.height * 3)).map fun j =>
    if j / 3 < img.data.length then uclamp (img.data.getD (j / 3) 0) else 0

/-- Lines 213-218 (`rgb`, rgba-to-rgb case): loop iteration `k` (with
`i = 4*k`, `k < ⌈data.length / 4⌉`) writes `newData[3*k + r] = data[4*k + r]`
for `r = 0,1,2`. -/
def rgbFrom4Data (img : RawImage) : List Nat :=
  (List.range (img.width * img.height * 3)).map fun j =>
    if j / 3 < (img.data.length + 3) / 4 then
      uclamp (img.data.getD (4 * (j / 3) + j % 3) 0)
    else 0

/-- `RawImage.rgb` (lines 198-225). -/
def rgb (img : RawImage) : Except ImgError RawImage :=
  if img.channels = 3 then .ok img
  else if img.channels = 1 then
    .ok ⟨rgbFrom1Data img, img.width, img.height, 3⟩
  else if img.channels = 4 then
    .ok ⟨rgbFrom4Data img, img.width, img.height, 3⟩
  else .error ImgError.UnsupportedChannelCount

/-- Lines 239-245 (`rgba`, grayscale-to-rgba case): iteration `i < data.length`
writes `newData[4*i + r] = data[i]` for `r = 0,1,2` and `newData[4*i+3] = 255`. -/
def rgbaFrom1Data (img : RawImage) : List Nat :=
  (List.range (img.width * img.height * 4)).map fun j =>
    if j / 4 < img.data.length then
      if j % 4 = 3 then 255 else uclamp (img.data.getD (j / 4) 0)
    else 0

/-- Lines 247-253 (`rgba`, rgb-to-rgba case): iteration `k < ⌈data.length / 3⌉`
writes `newData[4*k + r] = data[3*k + r]` for `r = 0,1,2` and
`newData[4*k+3] = 255`. -/
def rgbaFrom3Data (img : RawImage) : List Nat :=
  (List.range (img.width * img.height * 4)).map fun j =>
    if j / 4 < (img.data.length + 2) / 3 then
      if j % 4 = 3 then 255 else uclamp (img.data.getD (3 * (j / 4) + j % 4) 0)
    else 0

/-- `RawImage.rgba` (lines 231-260). -/
def rgba (img : RawImage) : Except ImgError RawImage :=
  if img.channels = 4 then .ok img
  else if img.channels = 1 then
    .ok ⟨rgbaFrom1Data img, img.width, img.height, 4⟩
  else if img.channels = 3 then
    .ok ⟨rgbaFrom3Data img, img.width, img.height, 4⟩
  else .error ImgError.UnsupportedChannelCount

/-- `RawImage.convert` (lines 659-676): no-op when the channel count already
matches, else dispatch on the requested count. -/
def convert (img : RawImage) (numChannels : Nat) : Except ImgError RawImage :=
  if img.channels = numChannels then .ok img
  else if numChannels = 1 then grayscale img
  else if numChannels = 3 then rgb img
  else if numChannels = 4 then rgba img
  else .error ImgError.UnsupportedChannelCount

/-- `convert(convert(img, 1), 3)` — the grayscale round trip of spec section 8. -/
def grayRoundTrip (img : RawImage) : Except ImgError RawImage :=
  (convert img 1).bind fun g => convert g 3

/-- `RawImage.pad` (lines 377-416, clamp/no-op preamble plus the no-canvas
fallback branch).  Offsets are clamped with `Math.max(·, 0)` (`Int.toNat`);
if all four clamped offsets are zero the image itself is returned.  Otherwise
(lines 400-416) a zeroed buffer of `newWidth * newHeight * channels` bytes is
filled by looping over the source pixels: source pixel `p` (coordinates
`x = p % width`, `y = p / width`) is written at `(y * newWidth + x) * channels
+ j` — the source computes the destination index without adding `left`/`top`.
Closed form: destination entry `m` (slot `q = m / channels`, channel
`j = m % channels`) was written iff `q % newWidth < width` and the source
pixel `(q / newWidth) * width + q % newWidth` is within the loop's range. -/
def pad (img : RawImage) (l r t b : Int) : RawImage :=
  let left := l.toNat
  let right := r.toNat
  let top := t.toNat
  let bottom := b.toNat
  if left = 0 ∧ right = 0 ∧ top = 0 ∧ bottom = 0 then img
  else
    let c := img.channels
    let newWidth := img.width + left + right
    let newHeight := img.height + top + bottom
    { data :=
        (List.range (newWidth * newHeight * c)).map fun m =>
          if (m / c) % newWidth < img.width ∧
             ((m / c) / newWidth) * img.width + (m / c) % newWidth <
               (img.data.length + c - 1) / c then
            uclamp (img.data.getD
              ((((m / c) / newWidth) * img.width + (m / c) % newWidth) * c + m % c) 0)
          else 0,
      width := newWidth, height := newHeight, channels := c }

/-- Reading `data[idx]` on a `Uint8ClampedArray` where `idx` may be fractional
(kept here as `idx2 = 2 * idx`, since all indices in `center_crop` are
half-integral): a fractional, negative, or out-of-range index yields
`undefined`, and writing `undefined` into a clamped array stores `0`. -/
def jsIndexRead (data : List Nat) (idx2 : Int) : Nat :=
  if idx2 % 2 = 0 ∧ 0 ≤ idx2 ∧ idx2 / 2 < (data.length : Int) then
    uclamp (data.getD (idx2 / 2).toNat 0)
  else 0

/-- `RawImage.center_crop` (lines 457-491, no-op preamble plus the no-canvas
fallback branch).  `width_offset = (width - crop_width) / 2` and
`height_offset = (height - crop_height) / 2` may be half-integral, so they are
tracked doubled (`wo2`, `ho2`).  The fallback loop writes, for destination
pixel `(x, y)` and channel `j`,
`croppedData[i + j] = data[((y + height_offset) * width + (x + width_offset)) *
channels + j]` — without flooring the offsets (compare the native branch,
line 545, which floors).  The source index is `idx2 / 2` with
`idx2 = ((2*y + ho2) * width + (2*x + wo2)) * channels + 2*j`. -/
def center_crop (img : RawImage) (cropWidth cropHeight : Nat) : RawImage :=
  if img.width = cropWidth ∧ img.height = cropHeight then img
  else
    let c := img.channels
    let wo2 : Int := (img.width : Int) - (cropWidth : Int)
    let ho2 : Int := (img.height : Int) - (cropHeight : Int)
    { data :=
        (List.range (cropWidth * cropHeight * c)).map fun m =>
          jsIndexRead img.data
            (((2 * (((m / c) / cropWidth : Nat) : Int) + ho2) * (img.width : Int)
              + (2 * (((m / c) % cropWidth : Nat) : Int) + wo2)) * (c : Int)
             + 2 * ((m % c : Nat) : Int)),
      width := cropWidth, height := cropHeight, channels := c }

/-- Modelled from the spec: the canvas-style `resize` branches (lines 277-287
and 309-329) draw the image to a canvas of the target size and read back
`ctx.getImageData(0, 0, width, height).data`, an RGBA buffer of exactly
`width * height * 4` bytes whose resampled pixel values are produced by the
host canvas (outside this repository); the readback bytes are abstracted as
the parameter `canvasData`.  The code then wraps them as a 4-channel
`RawImage` and converts back to the stored channel count (lines 325-328). -/
def resizeCanvas (numChannels w h : Nat) (canvasData : List Nat) :
    Except ImgError RawImage :=
  convert ⟨canvasData, w, h, 4⟩ numChannels

/-- `RESAMPLING_MAPPING` (lines 80-87).  The JS object is indexed by property
lookup, so keys are the decimal strings of the codes 0..5. -/
def RESAMPLING_MAPPING (key : String) : Option String :=
  if key = "0" then some "nearest"
  else if key = "1" then some "lanczos"
  else if key = "2" then some "bilinear"
  else if key = "3" then some "bicubic"
  else if key = "4" then some "box"
  else if key = "5" then some "hamming"
  else none

/-- A `resample` argument (line 267): a numeric code or a symbolic name. -/
def resampleKey : Nat ⊕ String → String
  | .inl n => toString n
  | .inr s => s

/-- Line 275: `RESAMPLING_MAPPING[resample] ?? resample`.  A numeric code left
unmapped stays numeric in the source and can then only hit the switch's
default; it is rendered here as its decimal string, which likewise matches
none of the string cases. -/
def resampleMethodOf (resample : Nat ⊕ String) : String :=
  (RESAMPLING_MAPPING (resampleKey resample)).getD (resampleKey resample)

/-- The backend call issued by the native (sharp) `resize` branch
(lines 340-370): an affine transform with scale factors
`width / this.width, height / this.height` and a named interpolator
(line 353), or a fill-fit resize with the lanczos3 kernel (line 361). -/
inductive SharpOp where
  | affine (scaleW scaleH : ℚ) (interpolator : String)
  | resizeFill (w h : Nat) (kernel : String)
  deriving DecidableEq

/-- The switch of the native `resize` branch (lines 340-370): `box`/`hamming`
log a warning, downgrade the method to `bilinear` and fall through into the
affine case; `nearest`/`bilinear`/`bicubic` use the affine transform;
`lanczos` uses the kernel resize; anything else throws.  The `Bool` records
whether the warning side effect fired. -/
def sharpResample (img : RawImage) (w h : Nat) (m : String) :
    Except ImgError (SharpOp × Bool) :=
  if m = "box" ∨ m = "hamming" then
    .ok (.affine ((w : ℚ) / img.width) ((h : ℚ) / img.height) "bilinear", true)
  else if m = "nearest" ∨ m = "bilinear" ∨ m = "bicubic" then
    .ok (.affine ((w : ℚ) / img.width) ((h : ℚ) / img.height) m, false)
  else if m = "lanczos" then
    .ok (.resizeFill w h "lanczos3", false)
  else .error ImgError.UnsupportedResampleMethod

/-- The native `resize` branch: resolve the resample argument (line 275), then
dispatch the switch. -/
def sharpResize (img : RawImage) (w h : Nat) (resample : Nat ⊕ String) :
    Except ImgError (SharpOp × Bool) :=
  sharpResample img w h (resampleMethodOf resample)

instance {ε α : Type} [DecidableEq ε] [DecidableEq α] :
    DecidableEq (Except ε α) := fun x y =>
  match x, y with
  | .ok a, .ok b =>
    if h : a = b then isTrue (by rw [h]) else isFalse (fun hc => h (Except.ok.inj hc))
  | .error a, .error b =>
    if h : a = b then isTrue (by rw [h]) else isFalse (fun hc => h (Except.error.inj hc))
  | .ok _, .error _ => isFalse (fun hc => Except.noConfusion hc)
  | .error _, .ok _ => isFalse (fun hc => Except.noConfusion hc)

theorem getD_map_range (f : Nat → Nat) {n k : Nat} (h : k < n) :
    ((List.range n).map f).getD k 0 = f k := by
  rw [List.getD_eq_getElem?_getD, List.getElem?_map, List.getElem?_range h]
  rfl

theorem getD_le_255 {l : List Nat} (h : ∀ v ∈ l, v ≤ 255) (i : Nat) :
    l.getD i 0 ≤ 255 := by
  by_cases hi : i < l.length
  · rw [List.getD_eq_getElem _ _ hi]
    exact h _ (List.getElem_mem _)
  · rw [List.getD_eq_default _ _ (Nat.le_of_not_lt hi)]
    omega

theorem uclamp_eq {v : Nat} (h : v ≤ 255) : uclamp v = v := min_eq_left h

/-- C1: the invariant claim fails in the code.  On the valid 1×1 3-channel
buffer `[10,20,30]` (`bytes.length = 1*1*3`), `grayscale` returns a buffer
with `channels = 1` but `bytes.length = 3 ≠ 1*1*1`: line 176 allocates
`width*height*3` bytes even though the result is 1-channel, so the invariant
`bytes.length == width*height*channels` is not re-established. -/
theorem C1_grayscale_invariant_bug :
    (([10, 20, 30] : List Nat).length = 1 * 1 * 3) ∧
    grayscale ⟨[10, 20, 30], 1, 1, 3⟩ = .ok ⟨[18, 0, 0], 1, 1, 1⟩ ∧
    ¬ (([18, 0, 0] : List Nat).length = 1 * 1 * 1) := by
  decide

/-- C2: the placement claim fails in the code.  Padding the valid 1×1
1-channel buffer `[5]` with offsets `[1,1,1,1]` yields a 3×3 buffer in which
the original pixel sits at destination `(0,0)` (index 0) instead of at
`(left, top) = (1,1)` (index `(0+1)*3 + (0+1) = 4`, which holds the fill
value): line 410 computes `pixelIndex = (y*width + x)*channels` without
adding `left`/`top`. -/
theorem C2_pad_offset_bug :
    pad ⟨[5], 1, 1, 1⟩ 1 1 1 1 = ⟨[5, 0, 0, 0, 0, 0, 0, 0, 0], 3, 3, 1⟩ ∧
    (pad ⟨[5], 1, 1, 1⟩ 1 1 1 1).data.getD ((0 + 1) * 3 + (0 + 1)) 0 ≠ 5 := by
  decide

/-- C3 counterexample: on a 3×1 1-channel buffer `[10,20,30]` cropped to 2×1,
`width_offset = 1/2 ≥ 0` and `height_offset = 0 ≥ 0`, so the claim demands
pure extraction at `(floor(1/2), 0) = (0,0)`, i.e. data `[10,20]`; the
fallback branch instead indexes `data` at the unfloored fractional positions
`1/2` and `3/2` (line 485 applies no `Math.floor`), reads `undefined`, and
stores `[0,0]`. -/
theorem C3_center_crop_cex :
    center_crop ⟨[10, 20, 30], 3, 1, 1⟩ 2 1 = ⟨[0, 0], 2, 1, 1⟩ ∧
    (center_crop ⟨[10, 20, 30], 3, 1, 1⟩ 2 1).data ≠ [10, 20] := by
  decide

/-- C5: the byte-count claim fails in the code on the canvas-style branch.
Resizing a 1-channel image to 3×3 reads back `3*3*4 = 36` RGBA bytes from the
canvas and converts back to 1 channel (line 328); that conversion is
`grayscale`, whose line-176 allocation produces `3*3*3 = 27` bytes with
`channels = 1`, not the `3*3*1 = 9` bytes the claim requires. -/
theorem C5_resize_canvas_length_bug :
    (List.replicate 36 (0 : Nat)).length = 3 * 3 * 4 ∧
    resizeCanvas 1 3 3 (List.replicate 36 0) =
      .ok ⟨List.replicate 27 0, 3, 3, 1⟩ ∧
    ¬ (List.replicate 27 (0 : Nat)).length = 3 * 3 * 1 := by
  decide

/-- C7: `pad` clamps each offset with `Math.max(·, 0)` (lines 378-381,
`Int.toNat` here), and whenever all four clamped offsets are 0 — including
when the caller passed negative offsets — it returns the very same buffer
(lines 383-386). -/
theorem C7_pad_noop (img : RawImage) (l r t b : Int)
    (hl : l.toNat = 0) (hr : r.toNat = 0) (ht : t.toNat = 0) (hb : b.toNat = 0) :
    pad img l r t b = img := by
  simp [pad, hl, hr, ht, hb]

/-- C7 witness: padding with `[-2, 0, -1, 0]` (clamped offsets all 0) returns
the buffer unchanged. -/
theorem C7_pad_noop_witness :
    ((-2 : Int).toNat = 0 ∧ (0 : Int).toNat = 0 ∧ (-1 : Int).toNat = 0) ∧
    pad ⟨[9], 1, 1, 1⟩ (-2) 0 (-1) 0 = ⟨[9], 1, 1, 1⟩ :=
  ⟨⟨by decide, by decide, by decide⟩,
   C7_pad_noop ⟨[9], 1, 1, 1⟩ (-2) 0 (-1) 0
     (by decide) (by decide) (by decide) (by decide)⟩

theorem grayscale_eq (img : RawImage)
    (hc : img.channels = 3 ∨ img.channels = 4) :
    grayscale img = .ok ⟨grayData img, img.width, img.height, 1⟩ := by
  have h1 : ¬ img.channels = 1 := by rcases hc with h | h <;> omega
  rw [grayscale, if_neg h1, if_pos hc]

theorem rgb_from1_eq (img : RawImage) (h1 : img.channels = 1) :
    rgb img = .ok ⟨rgbFrom1Data img, img.width, img.height, 3⟩ := by
  rw [rgb, if_neg (by omega), if_pos h1]

theorem convert_to3_of_one (img : RawImage) (h1 : img.channels = 1) :
    convert img 3 = .ok ⟨rgbFrom1Data img, img.width, img.height, 3⟩ := by
  rw [convert, if_neg (by omega), if_neg (by omega), if_pos rfl]
  exact rgb_from1_eq img h1

theorem rgbFrom1Data_triple (img : RawImage) (p : Nat)
    (hp : p < img.width * img.height) :
    (rgbFrom1Data img).getD (3 * p) 0 = (rgbFrom1Data img).getD (3 * p + 1) 0 ∧
    (rgbFrom1Data img).getD (3 * p + 1) 0 =
      (rgbFrom1Data img).getD (3 * p + 2) 0 := by
  have h0 : 3 * p < img.width * img.height * 3 := by omega
  have h1 : 3 * p + 1 < img.width * img.height * 3 := by omega
  have h2 : 3 * p + 2 < img.width * img.height * 3 := by omega
  rw [rgbFrom1Data, getD_map_range _ h0, getD_map_range _ h1, getD_map_range _ h2]
  have e0 : 3 * p / 3 = p := by omega
  have e1 : (3 * p + 1) / 3 = p := by omega
  have e2 : (3 * p + 2) / 3 = p := by omega
  rw [e0, e1, e2]
  exact ⟨rfl, rfl⟩

/-- C6: for every valid buffer (channels in {1,3,4}, layout invariant),
converting to 1 channel and back to 3 succeeds and every pixel of the
3-channel result satisfies R = G = B: `rgb` from a 1-channel source writes
the same source byte into all three slots of each pixel (the trailing
garbage of `grayscale`'s over-allocation is neutralised because the typed
array discards the resulting out-of-bounds writes). -/
theorem C6_gray_roundtrip (img : RawImage)
    (hc : img.channels = 1 ∨ img.channels = 3 ∨ img.channels = 4)
    (hlen : img.data.length = img.width * img.height * img.channels) :
    ∃ res, grayRoundTrip img = .ok res ∧ res.channels = 3 ∧
      res.width = img.width ∧ res.height = img.height ∧
      ∀ p, p < img.width * img.height →
        (res.data.getD (3 * p) 0 = res.data.getD (3 * p + 1) 0 ∧
         res.data.getD (3 * p + 1) 0 = res.data.getD (3 * p + 2) 0) := by
  rcases hc with h1 | h34
  · have hcv1 : convert img 1 = .ok img := by rw [convert, if_pos h1]
    refine ⟨⟨rgbFrom1Data img, img.width, img.height, 3⟩, ?_, rfl, rfl, rfl, ?_⟩
    · rw [grayRoundTrip, hcv1]
      show convert img 3 = _
      exact convert_to3_of_one img h1
    · intro p hp
      exact rgbFrom1Data_triple img p hp
  · have h1' : ¬ img.channels = 1 := by rcases h34 with h | h <;> omega
    have hcv1 : convert img 1 = grayscale img := by
      rw [convert, if_neg h1', if_pos rfl]
    refine ⟨⟨rgbFrom1Data ⟨grayData img, img.width, img.height, 1⟩,
              img.width, img.height, 3⟩, ?_, rfl, rfl, rfl, ?_⟩
    · rw [grayRoundTrip, hcv1, grayscale_eq img h34]
      show convert ⟨grayData img, img.width, img.height, 1⟩ 3 = _
      exact convert_to3_of_one ⟨grayData img, img.width, img.height, 1⟩ rfl
    · intro p hp
      exact rgbFrom1Data_triple ⟨grayData img, img.width, img.height, 1⟩ p hp

/-- C6 witness: the valid 2×2 RGB buffer of C4's scenario round-trips to a
3-channel buffer whose pixels all satisfy R = G = B. -/
theorem C6_gray_roundtrip_witness :
    ((([255, 0, 0, 0, 255, 0, 0, 0, 255, 255, 255, 255] : List Nat).length =
        2 * 2 * 3)) ∧
    (∃ res,
      grayRoundTrip ⟨[255, 0, 0, 0, 255, 0, 0, 0, 255, 255, 255, 255], 2, 2, 3⟩ =
        .ok res ∧ res.channels = 3 ∧ res.width = 2 ∧ res.height = 2 ∧
      ∀ p, p < 2 * 2 →
        (res.data.getD (3 * p) 0 = res.data.getD (3 * p + 1) 0 ∧
         res.data.getD (3 * p + 1) 0 = res.data.getD (3 * p + 2) 0)) :=
  ⟨by decide,
   C6_gray_roundtrip ⟨[255, 0, 0, 0, 255, 0, 0, 0, 255, 255, 255, 255], 2, 2, 3⟩
     (Or.inr (Or.inl rfl)) (by decide)⟩

/-- C8: on a buffer whose channel count lies outside {1,3,4}, `grayscale`,
`rgb`, `rgba` and `convert` to any count different from the current one all
fail with `UnsupportedChannelCount` (in the source each throws from the
switch's default case before any `_update`, so the instance fields are left
untouched). -/
theorem C8_unsupported_channels (img : RawImage)
    (hc : ¬(img.channels = 1 ∨ img.channels = 3 ∨ img.channels = 4)) :
    grayscale img = .error ImgError.UnsupportedChannelCount ∧
    rgb img = .error ImgError.UnsupportedChannelCount ∧
    rgba img = .error ImgError.UnsupportedChannelCount ∧
    ∀ n, n ≠ img.channels →
      convert img n = .error ImgError.UnsupportedChannelCount := by
  push_neg at hc
  obtain ⟨h1, h3, h4⟩ := hc
  have hg : grayscale img = .error ImgError.UnsupportedChannelCount := by
    rw [grayscale, if_neg h1, if_neg (by tauto)]
  have hr : rgb img = .error ImgError.UnsupportedChannelCount := by
    rw [rgb, if_neg h3, if_neg h1, if_neg h4]
  have ha : rgba img = .error ImgError.UnsupportedChannelCount := by
    rw [rgba, if_neg h4, if_neg h1, if_neg h3]
  refine ⟨hg, hr, ha, ?_⟩
  intro n hn
  rw [convert, if_neg (fun h => hn h.symm)]
  by_cases e1 : n = 1
  · rw [if_pos e1]; exact hg
  · rw [if_neg e1]
    by_cases e3 : n = 3
    · rw [if_pos e3]; exact hr
    · rw [if_neg e3]
      by_cases e4 : n = 4
      · rw [if_pos e4]; exact ha
      · rw [if_neg e4]

/-- C8 witness: a 1×1 2-channel buffer is rejected by every channel-converting
operation. -/
theorem C8_unsupported_channels_witness :
    (¬((2 : Nat) = 1 ∨ (2 : Nat) = 3 ∨ (2 : Nat) = 4)) ∧
    (grayscale ⟨[7, 8], 1, 1, 2⟩ = .error ImgError.UnsupportedChannelCount ∧
     rgb ⟨[7, 8], 1, 1, 2⟩ = .error ImgError.UnsupportedChannelCount ∧
     rgba ⟨[7, 8], 1, 1, 2⟩ = .error ImgError.UnsupportedChannelCount ∧
     ∀ n, n ≠ 2 →
       convert ⟨[7, 8], 1, 1, 2⟩ n = .error ImgError.UnsupportedChannelCount) :=
  ⟨by decide, C8_unsupported_channels ⟨[7, 8], 1, 1, 2⟩ (by decide)⟩

/-- C9: on the native backend, a resample argument resolving to `box` or
`hamming` never fails: the call downgrades to `bilinear` with the warning
flag set and issues exactly the backend call that `resample = 2` (bilinear)
issues; a code or name resolving outside the fixed table fails with
`UnsupportedResampleMethod`. -/
theorem C9_resample_downgrade (img : RawImage) (w h : Nat) (x : Nat ⊕ String) :
    ((resampleMethodOf x = "box" ∨ resampleMethodOf x = "hamming") →
      ∃ p, sharpResize img w h x = .ok (p, true) ∧
        sharpResize img w h (Sum.inl 2) = .ok (p, false)) ∧
    (resampleMethodOf x ∉
        ["nearest", "lanczos", "bilinear", "bicubic", "box", "hamming"] →
      sharpResize img w h x = .error ImgError.UnsupportedResampleMethod) := by
  constructor
  · intro hm
    refine ⟨.affine ((w : ℚ) / img.width) ((h : ℚ) / img.height) "bilinear", ?_, ?_⟩
    · rw [sharpResize, sharpResample, if_pos hm]
    · rfl
  · intro hm
    rw [sharpResize, sharpResample]
    split_ifs with hA hB hC
    · rcases hA with hA | hA <;> exact absurd (by rw [hA]; decide) hm
    · rcases hB with hB | hB | hB <;> exact absurd (by rw [hB]; decide) hm
    · exact absurd (by rw [hC]; decide) hm
    · rfl

/-- C9 witness: code 4 (`box`) downgrades to the bilinear affine call with a
warning; the unknown name `gaussian` fails with `UnsupportedResampleMethod`. -/
theorem C9_resample_downgrade_witness :
    (resampleMethodOf (Sum.inl 4) = "box" ∨
       resampleMethodOf (Sum.inl 4) = "hamming") ∧
    (∃ p, sharpResize ⟨[0], 1, 1, 1⟩ 2 2 (Sum.inl 4) = .ok (p, true) ∧
       sharpResize ⟨[0], 1, 1, 1⟩ 2 2 (Sum.inl 2) = .ok (p, false)) ∧
    (resampleMethodOf (Sum.inr "gaussian") ∉
       ["nearest", "lanczos", "bilinear", "bicubic", "box", "hamming"]) ∧
    sharpResize ⟨[0], 1, 1, 1⟩ 2 2 (Sum.inr "gaussian") =
      .error ImgError.UnsupportedResampleMethod :=
  ⟨by decide,
   (C9_resample_downgrade ⟨[0], 1, 1, 1⟩ 2 2 (Sum.inl 4)).1 (by decide),
   by decide,
   (C9_resample_downgrade ⟨[0], 1, 1, 1⟩ 2 2 (Sum.inr "gaussian")).2 (by decide)⟩

theorem jsIndexRead_even {data : List Nat} (hb : ∀ v ∈ data, v ≤ 255)
    {T : Nat} (hT : T < data.length) {idx2 : Int} (he : idx2 = 2 * (T : Int)) :
    jsIndexRead data idx2 = data.getD T 0 := by
  subst he
  rw [jsIndexRead, if_pos ⟨by omega, by omega, by omega⟩]
  have ht : ((2 * (T : Int)) / 2).toNat = T := by omega
  rw [ht]
  exact uclamp_eq (getD_le_255 hb T)

/-- C3 (amended): whenever both offsets are nonnegative and integral — i.e.
`crop_width ≤ width`, `crop_height ≤ height` and both differences are even —
the fallback `center_crop` is pure extraction of the
`crop_width × crop_height` window whose top-left source pixel is
`(width_offset, height_offset)` (which then equal their floors).  With a
fractional offset the unfloored remapping of line 485 need not read the
floored window (at the counterexample's input the computed indices are
themselves fractional, so the reads are undefined and `0` is stored). -/
theorem C3_center_crop_amended (img : RawImage) (cropWidth cropHeight : Nat)
    (hch : img.channels = 1 ∨ img.channels = 3 ∨ img.channels = 4)
    (hlen : img.data.length = img.width * img.height * img.channels)
    (hb : ∀ v ∈ img.data, v ≤ 255)
    (hw : cropWidth ≤ img.width) (hh : cropHeight ≤ img.height)
    (hweven : (img.width - cropWidth) % 2 = 0)
    (hheven : (img.height - cropHeight) % 2 = 0) :
    (center_crop img cropWidth cropHeight).width = cropWidth ∧
    (center_crop img cropWidth cropHeight).height = cropHeight ∧
    (center_crop img cropWidth cropHeight).channels = img.channels ∧
    (center_crop img cropWidth cropHeight).data.length =
      cropWidth * cropHeight * img.channels ∧
    ∀ m, m < cropWidth * cropHeight * img.channels →
      (center_crop img cropWidth cropHeight).data.getD m 0 =
        img.data.getD
          (((m / img.channels / cropWidth + (img.height - cropHeight) / 2) *
              img.width +
            (m / img.channels % cropWidth + (img.width - cropWidth) / 2)) *
            img.channels + m % img.channels) 0 := by
  have hc0 : 0 < img.channels := by rcases hch with h | h | h <;> omega
  by_cases hid : img.width = cropWidth ∧ img.height = cropHeight
  · obtain ⟨hwid, hhei⟩ := hid
    subst hwid
    subst hhei
    rw [center_crop, if_pos ⟨rfl, rfl⟩]
    refine ⟨rfl, rfl, rfl, hlen, ?_⟩
    intro m hm
    have e : ((m / img.channels / img.width + (img.height - img.height) / 2) *
          img.width +
        (m / img.channels % img.width + (img.width - img.width) / 2)) *
        img.channels + m % img.channels = m := by
      rw [Nat.sub_self, Nat.sub_self, Nat.zero_div, Nat.add_zero, Nat.add_zero,
        Nat.div_add_mod', Nat.div_add_mod']
    rw [e]
  · have hcc : center_crop img cropWidth cropHeight =
        ⟨(List.range (cropWidth * cropHeight * img.channels)).map fun m =>
            jsIndexRead img.data
              (((2 * ((m / img.channels / cropWidth : Nat) : Int) +
                    ((img.height : Int) - (cropHeight : Int))) * (img.width : Int) +
                  (2 * ((m / img.channels % cropWidth : Nat) : Int) +
                    ((img.width : Int) - (cropWidth : Int)))) * (img.channels : Int) +
                2 * ((m % img.channels : Nat) : Int)),
          cropWidth, cropHeight, img.channels⟩ := by
      rw [center_crop, if_neg hid]
    rw [hcc]
    refine ⟨rfl, rfl, rfl, by simp, ?_⟩
    intro m hm
    rw [getD_map_range _ hm]
    have hcw0 : 0 < cropWidth := by
      rcases Nat.eq_zero_or_pos cropWidth with h0 | h0

      · subst h0
        rw [Nat.zero_mul, Nat.zero_mul] at hm
        exact absurd hm (Nat.not_lt_zero m)
      · exact h0
    have hq : m / img.channels < cropWidth * cropHeight :=
      (Nat.div_lt_iff_lt_mul hc0).mpr hm
    have hy : m / img.channels / cropWidth < cropHeight :=
      (Nat.div_lt_iff_lt_mul hcw0).mpr (by rw [Nat.mul_comm] at hq; exact hq)
    have hx : m / img.channels % cropWidth < cropWidth := Nat.mod_lt _ hcw0
    have hj : m % img.channels < img.channels := Nat.mod_lt _ hc0
    have hyh : m / img.channels / cropWidth + (img.height - cropHeight) / 2 <
        img.height := by omega
    have hxw : m / img.channels % cropWidth + (img.width - cropWidth) / 2 <
        img.width := by omega
    have hrow : (m / img.channels / cropWidth + (img.height - cropHeight) / 2) *
          img.width +
        (m / img.channels % cropWidth + (img.width - cropWidth) / 2) + 1 ≤
        img.height * img.width := by
      calc (m / img.channels / cropWidth + (img.height - cropHeight) / 2) *
              img.width +
            (m / img.channels % cropWidth + (img.width - cropWidth) / 2) + 1
          ≤ (m / img.channels / cropWidth + (img.height - cropHeight) / 2) *
              img.width + img.width := by omega
        _ = (m / img.channels / cropWidth + (img.height - cropHeight) / 2 + 1) *
              img.width := by ring
        _ ≤ img.height * img.width := Nat.mul_le_mul_right _ (by omega)
    have hT : ((m / img.channels / cropWidth + (img.height - cropHeight) / 2) *
          img.width +
        (m / img.channels % cropWidth + (img.width - cropWidth) / 2)) *
        img.channels + m % img.channels < img.data.length := by
      rw [hlen]
      calc ((m / img.channels / cropWidth + (img.height - cropHeight) / 2) *
              img.width +
            (m / img.channels % cropWidth + (img.width - cropWidth) / 2)) *
            img.channels + m % img.channels
          < ((m / img.channels / cropWidth + (img.height - cropHeight) / 2) *
              img.width +
            (m / img.channels % cropWidth + (img.width - cropWidth) / 2)) *
            img.channels + img.channels := by omega
        _ = ((m / img.channels / cropWidth + (img.height - cropHeight) / 2) *
              img.width +
            (m / img.channels % cropWidth + (img.width - cropWidth) / 2) + 1) *
            img.channels := by ring
        _ ≤ (img.height * img.width) * img.channels :=
            Nat.mul_le_mul_right _ hrow
        _ = img.width * img.height * img.channels := by ring
    refine jsIndexRead_even hb hT ?_
    have hcastW : (img.width : Int) - (cropWidth : Int) =
        2 * (((img.width - cropWidth) / 2 : Nat) : Int) := by omega
    have hcastH : (img.height : Int) - (cropHeight : Int) =
        2 * (((img.height - cropHeight) / 2 : Nat) : Int) := by omega
    rw [hcastW, hcastH]
    push_cast
    ring

/-- C3 witness: a 10×10 1-channel image holding byte value `10*row + col + …`
(here: value = index, i.e. `10*row + col`) center-cropped to 4×4 satisfies
the amended theorem, and its output is exactly the window at rows/cols 3..6. -/
theorem C3_center_crop_amended_witness :
    (((List.range 100).length = 10 * 10 * 1) ∧
     (∀ v ∈ List.range 100, v ≤ 255) ∧
     4 ≤ 10 ∧ ((10 - 4) % 2 = 0)) ∧
    ((center_crop ⟨List.range 100, 10, 10, 1⟩ 4 4).width = 4 ∧
     (center_crop ⟨List.range 100, 10, 10, 1⟩ 4 4).height = 4 ∧
     (center_crop ⟨List.range 100, 10, 10, 1⟩ 4 4).channels = 1 ∧
     (center_crop ⟨List.range 100, 10, 10, 1⟩ 4 4).data.length = 4 * 4 * 1 ∧
     ∀ m, m < 4 * 4 * 1 →
       (center_crop ⟨List.range 100, 10, 10, 1⟩ 4 4).data.getD m 0 =
         (List.range 100).getD
           (((m / 1 / 4 + (10 - 4) / 2) * 10 + (m / 1 % 4 + (10 - 4) / 2)) * 1 +
             m % 1) 0) ∧
    (center_crop ⟨List.range 100, 10, 10, 1⟩ 4 4).data =
      [33, 34, 35, 36, 43, 44, 45, 46, 53, 54, 55, 56, 63, 64, 65, 66] :=
  ⟨⟨by decide, by decide, by decide, by decide⟩,
   C3_center_crop_amended ⟨List.range 100, 10, 10, 1⟩ 4 4 (Or.inl rfl)
     (by decide) (by decide) (by decide) (by decide) (by decide) (by decide),
   by decide⟩

/-- A store of allocated byte arrays: JS instances hold references to
`Uint8ClampedArray` cells.  `alloc` appends a fresh cell and returns its
index; no operation of this module ever overwrites an existing cell. -/
structure Store where
  arrays : List (List Nat)
  deriving DecidableEq

def alloc (s : Store) (a : List Nat) : Store × Nat :=
  (⟨s.arrays ++ [a]⟩, s.arrays.length)

def deref (s : Store) (ref : Nat) : List Nat :=
  s.arrays.getD ref []

/-- A `RawImage` instance with its `data` field as a store reference. -/
structure ImgRef where
  dataRef : Nat
  width : Nat
  height : Nat
  channels : Nat
  deriving DecidableEq

def toImg (s : Store) (ref : ImgRef) : RawImage :=
  ⟨deref s ref.dataRef, ref.width, ref.height, ref.channels⟩

/-- `RawImage.clone` (lines 650-652): `this.data.slice()` allocates a fresh
copy of the bytes, so the clone references a new cell holding the same
contents. -/
def cloneRef (s : Store) (ref : ImgRef) : Store × ImgRef :=
  ((alloc s (deref s ref.dataRef)).1,
   { ref with dataRef := (alloc s (deref s ref.dataRef)).2 })

/-- `RawImage.rgba` as executed on an instance: a no-op at 4 channels
(line 232); otherwise `newData` is a freshly allocated array and `_update`
(line 637) repoints the instance's `data` field at it — the previously
referenced cell is never written. -/
def rgbaRef (s : Store) (ref : ImgRef) : Except ImgError (Store × ImgRef) :=
  if ref.channels = 4 then .ok (s, ref)
  else
    (rgba (toImg s ref)).map fun res =>
      ((alloc s res.data).1,
       { ref with dataRef := (alloc s res.data).2, channels := 4 })

/-- `RawImage.toImageData` (lines 602-610): clone, convert the clone to RGBA,
and build the ImageData triple from the clone; `this` is never assigned. -/
def toImageDataRef (s : Store) (ref : ImgRef) :
    Except ImgError (Store × (List Nat × Nat × Nat)) :=
  (rgbaRef (cloneRef s ref).1 (cloneRef s ref).2).map fun p =>
    (p.1, (deref p.1 p.2.dataRef, p.2.width, p.2.height))

theorem deref_alloc_lt (s : Store) (a : List Nat) {r : Nat}
    (h : r < s.arrays.length) : deref (alloc s a).1 r = deref s r := by
  show (s.arrays ++ [a]).getD r [] = s.arrays.getD r []
  rw [List.getD_eq_getElem?_getD, List.getElem?_append, if_pos h,
    List.getD_eq_getElem?_getD]

theorem deref_alloc_self (s : Store) (a : List Nat) :
    deref (alloc s a).1 s.arrays.length = a := by
  show (s.arrays ++ [a]).getD s.arrays.length [] = a
  rw [List.getD_eq_getElem?_getD, List.getElem?_concat_length]
  rfl

theorem rgbaRef_preserves {s : Store} {ref : ImgRef} {s2 : Store}
    {ref2 : ImgRef} (hok : rgbaRef s ref = .ok (s2, ref2)) {r : Nat}
    (hr : r < s.arrays.length) : deref s2 r = deref s r := by
  by_cases h4 : ref.channels = 4
  · rw [rgbaRef, if_pos h4] at hok
    have hs : s = s2 := congrArg Prod.fst (Except.ok.inj hok)
    rw [← hs]
  · rw [rgbaRef, if_neg h4] at hok
    cases hrg : rgba (toImg s ref) with
    | ok res =>
      rw [hrg] at hok
      simp only [Except.map] at hok
      have hs : (alloc s res.data).1 = s2 := congrArg Prod.fst (Except.ok.inj hok)
      rw [← hs]
      exact deref_alloc_lt s res.data hr
    | error e =>
      rw [hrg] at hok
      exact Except.noConfusion hok

/-- C10: cloning copies the bytes into a fresh cell distinct from the
instance's cell; a later conversion applied to the original instance leaves
the clone's bytes unchanged; and `toImageData` (which converts a clone to
RGBA) leaves the instance's referenced bytes unchanged. -/
theorem C10_clone_isolation (s : Store) (ref : ImgRef)
    (h : ref.dataRef < s.arrays.length) :
    deref (cloneRef s ref).1 (cloneRef s ref).2.dataRef = deref s ref.dataRef ∧
    (cloneRef s ref).2.dataRef ≠ ref.dataRef ∧
    (∀ s2 ref2, rgbaRef (cloneRef s ref).1 ref = .ok (s2, ref2) →
      deref s2 (cloneRef s ref).2.dataRef = deref s ref.dataRef) ∧
    (∀ s2 out, toImageDataRef s ref = .ok (s2, out) →
      deref s2 ref.dataRef = deref s ref.dataRef) := by
  have hgrow : s.arrays.length <
      ((alloc s (deref s ref.dataRef)).1).arrays.length := by
    show s.arrays.length < (s.arrays ++ [deref s ref.dataRef]).length
    simp
  refine ⟨deref_alloc_self s _, ?_, ?_, ?_⟩
  · show s.arrays.length ≠ ref.dataRef
    omega
  · intro s2 ref2 hok
    have h1 : deref s2 (cloneRef s ref).2.dataRef =
        deref (cloneRef s ref).1 (cloneRef s ref).2.dataRef :=
      rgbaRef_preserves hok hgrow
    rw [h1]
    exact deref_alloc_self s _
  · intro s2 out hok
    rw [toImageDataRef] at hok
    cases hr : rgbaRef (cloneRef s ref).1 (cloneRef s ref).2 with
    | ok pair =>
      rw [hr] at hok
      simp only [Except.map] at hok
      have hs : pair.1 = s2 := congrArg Prod.fst (Except.ok.inj hok)
      have h2 : deref pair.1 ref.dataRef = deref (cloneRef s ref).1 ref.dataRef := by
        obtain ⟨s3, c2⟩ := pair
        exact rgbaRef_preserves hr (Nat.lt_trans h hgrow)
      rw [← hs, h2]
      exact deref_alloc_lt s _ h
    | error e =>
      rw [hr] at hok
      exact Except.noConfusion hok

/-- C10 witness: a concrete one-cell store; cloning, converting the original,
and `toImageData` all leave the instance's cell `[1,2,3]` intact. -/
theorem C10_clone_isolation_witness :
    ((0 : Nat) < 1) ∧
    (deref (cloneRef ⟨[[1, 2, 3]]⟩ ⟨0, 1, 1, 3⟩).1
        (cloneRef ⟨[[1, 2, 3]]⟩ ⟨0, 1, 1, 3⟩).2.dataRef =
      deref ⟨[[1, 2, 3]]⟩ 0 ∧
     (cloneRef ⟨[[1, 2, 3]]⟩ ⟨0, 1, 1, 3⟩).2.dataRef ≠ 0 ∧
     (∀ s2 ref2,
        rgbaRef (cloneRef ⟨[[1, 2, 3]]⟩ ⟨0, 1, 1, 3⟩).1 ⟨0, 1, 1, 3⟩ =
          .ok (s2, ref2) →
        deref s2 (cloneRef ⟨[[1, 2, 3]]⟩ ⟨0, 1, 1, 3⟩).2.dataRef =
          deref ⟨[[1, 2, 3]]⟩ 0) ∧
     (∀ s2 out, toImageDataRef ⟨[[1, 2, 3]]⟩ ⟨0, 1, 1, 3⟩ = .ok (s2, out) →
        deref s2 0 = deref ⟨[[1, 2, 3]]⟩ 0)) :=
  ⟨by decide, C10_clone_isolation ⟨[[1, 2, 3]]⟩ ⟨0, 1, 1, 3⟩ (by decide)⟩

end TJS
